import Mathlib

/-!
Shallow embedding of the NLSQL-Agent pipeline (src/app.py).

External collaborators — the DuckDB engine (`Engine`), the language model
(`LLM`) and Python's strict JSON decoder (`JsonDecoder`) — are modelled as
oracle parameters; everything else is translated line by line from
`app.py`: `get_db_info`, `format_schema_for_prompt`, `upload_file`,
`ask_query` and `clear_session`.  Machine state that the Python code keeps
in the process and the OS (the `db_session` dict, files on disk, open
DuckDB connections) is threaded explicitly through a `World` record.
-/

namespace NLSQL

/-- `startsWithChars pat s` holds when `pat` is an initial run of `s`
(character lists). -/
def startsWithChars : List Char → List Char → Bool
  | [], _ => true
  | _ :: _, [] => false
  | p :: ps, c :: cs => p == c && startsWithChars ps cs

/-- Python's substring test `pat in s`, on character lists. -/
def hasSubChars (pat : List Char) : List Char → Bool
  | [] => startsWithChars pat []
  | c :: cs => startsWithChars pat (c :: cs) || hasSubChars pat cs

/-- Python's `pat in s` for strings (substring containment). -/
def strContains (s pat : String) : Bool :=
  hasSubChars pat.data s.data

/-- Replacement of every occurrence of the nonempty pattern `p :: ps`,
scanning left to right as Python's `str.replace` does; the fuel is an
upper bound on the scanned length (structural recursion, so the kernel
can evaluate it). -/
def replaceGo (p : Char) (ps rep : List Char) : Nat → List Char → List Char
  | 0, l => l
  | _ + 1, [] => []
  | n + 1, c :: cs =>
    if startsWithChars (p :: ps) (c :: cs) then
      rep ++ replaceGo p ps rep n (List.drop ps.length cs)
    else
      c :: replaceGo p ps rep n cs

/-- Python `str.replace` with an empty pattern: the replacement is
inserted before every character and at the end. -/
def emptyPatReplace (rep : List Char) : List Char → List Char
  | [] => rep
  | c :: cs => rep ++ c :: emptyPatReplace rep cs

/-- Python's `s.replace(pat, rep)` (all occurrences; empty pattern
interleaves the replacement). -/
def pyReplace (s pat rep : String) : String :=
  match pat.data with
  | [] => String.mk (emptyPatReplace rep.data s.data)
  | p :: ps => String.mk (replaceGo p ps rep.data s.data.length s.data)

/-- Python's `str.lower()` on the ASCII range (character-wise
lowercasing; kernel-reducible, unlike `String.toLower`). -/
def pyLower (s : String) : String :=
  String.mk (s.data.map Char.toLower)

/-- Python's `str.strip()` (drop whitespace from both ends). -/
def pyStrip (s : String) : String :=
  String.mk (((s.data.dropWhile Char.isWhitespace).reverse.dropWhile
    Char.isWhitespace).reverse)

/-- The suffix of a character list starting at its last dot, when any. -/
def lastDotSuffix : List Char → Option (List Char)
  | [] => none
  | c :: cs =>
    match lastDotSuffix cs with
    | some s => some s
    | none => if c == '.' then some (c :: cs) else none

/-- The characters after the last slash (the whole list when there is
none). -/
def basenameChars (l : List Char) : List Char :=
  (l.reverse.takeWhile (fun c => !(c == '/'))).reverse

/-- The extension part of Python's `os.path.splitext`: the basename
after the last slash, its leading dots skipped, split at its last
remaining dot. -/
def splitext_ext (p : String) : String :=
  let base := basenameChars p.data
  let rest := base.dropWhile (fun c => c == '.')
  match lastDotSuffix rest with
  | some s => String.mk s
  | none => ""

/-- `re.search` for the pattern matching a fenced JSON block
(an opening fence, a lazily matched body, a closing fence): returns the
prefix of `s` before the first occurrence of `pat`, when `pat` occurs. -/
def beforeFirst (pat : List Char) : List Char → Option (List Char)
  | [] => if pat.isEmpty then some [] else none
  | c :: cs =>
    if startsWithChars pat (c :: cs) then some []
    else (beforeFirst pat cs).map (c :: ·)

/-- The group captured by `re.search` with the fenced-JSON pattern of
app.py line 199 (DOTALL, lazy body): at the first opening fence followed
by a closing fence, the body between them. -/
def searchFenced (s : List Char) : Option (List Char) :=
  match s with
  | [] => none
  | _ :: cs =>
    if startsWithChars ("```json\n".data) s then
      match beforeFirst ("```".data) (List.drop 8 s) with
      | some grp => some grp
      | none => searchFenced cs
    else searchFenced cs

/-- app.py lines 199–203: the payload handed to the JSON decoder — the
stripped fenced block when the response embeds one, else the whole
stripped response. -/
def extract_payload (content : String) : String :=
  match searchFenced content.data with
  | some grp => pyStrip (String.mk grp)
  | none => pyStrip content

/-- A DuckDB database state (the contents behind one connection); the
engine oracle interprets it. -/
abbrev DB := List (List String)

/-- The DuckDB engine oracle: a SQL text and a database state yield an
error string (a raised exception) or the cursor description's column
names, the fetched rows, and the possibly updated database state. -/
abbrev Engine := String → DB → Except String (List String × List (List String) × DB)

/-- The language-model oracle of app.py lines 164–197: given the question
text placed in the prompt, the table name and the rendered schema, it
yields the raw response content, or an error for a failed service call. -/
abbrev LLM := String → String → String → Except String String

/-- Python's `json.loads` restricted to the shape the prompt requests: a
JSON object with string fields, or `none` on a strict decode failure. -/
abbrev JsonDecoder := String → Option (List (String × String))

/-- Python `dict.get(k, d)` on the decoded JSON object. -/
def lookupD (l : List (String × String)) (k d : String) : String :=
  match l.find? (fun p => p.1 == k) with
  | some p => p.2
  | none => d

/-- One entry of the `db_session` dict (app.py lines 98–103). -/
structure SessionData where
  db : DB
  file_path : String
  db_file_path : String
  table_name : String
  deriving DecidableEq

/-- The global `db_session` dict: an association list with dict
semantics (lookup by key, assignment replaces, deletion removes). -/
abbrev Registry := List (String × SessionData)

/-- `db_session[sid]` lookup. -/
def regLookup (reg : Registry) (sid : String) : Option SessionData :=
  match reg.find? (fun p => p.1 == sid) with
  | some p => some p.2
  | none => none

/-- `db_session[sid] = sd` (assignment; replaces any previous binding). -/
def regSet (reg : Registry) (sid : String) (sd : SessionData) : Registry :=
  (sid, sd) :: reg.filter (fun p => !(p.1 == sid))

/-- `del db_session[sid]`. -/
def regErase (reg : Registry) (sid : String) : Registry :=
  reg.filter (fun p => !(p.1 == sid))

/-- Process-and-OS state: the session dict, the files on disk, and the
open DuckDB connections (identified by their database file path). -/
structure World where
  registry : Registry
  files : List String
  cons : List String
  deriving DecidableEq

/-- The JSON body of a successful `/ask` response (app.py lines 152–158
and 231–237); the `status` field is the constant `"success"`. -/
structure QueryResponse where
  sql_query : String
  explanation : String
  results : Option (List (List String))
  execution_error : Option String
  deriving DecidableEq

/-- Outcome of `/ask`: the success JSON, or an error JSON with its HTTP
status code and message. -/
inductive AskOutcome where
  | ok (resp : QueryResponse)
  | err (code : Nat) (message : String)
  deriving DecidableEq

/-- Outcome of `/clear_session`. -/
inductive SimpleOutcome where
  | ok (message : String)
  | err (code : Nat) (message : String)
  deriving DecidableEq

/-- Outcome of `/upload`. -/
inductive UploadOutcome where
  | ok (session_id : String) (columns : List (String × String))
      (total_rows : String) (preview_data : List (List String))
      (table_name : String)
  | err (code : Nat) (message : String)
  deriving DecidableEq

/-- The shared execute-and-fetch block (app.py lines 142–150 and
216–229): run the SQL, take headers from the cursor description, prepend
them to the fetched rows; a raised exception becomes the
`execution_error` string with `results` left null. -/
def run_execute (engine : Engine) (db : DB) (sql : String) :
    Option (List (List String)) × Option String × DB :=
  match engine sql db with
  | .ok (headers, rows, db2) => (some (headers :: rows), none, db2)
  | .error e => (none, some e, db)

/-- `format_schema_for_prompt` body over the fetched `PRAGMA table_info`
rows: one `- name (type)` line per row; a too-short row raises the
IndexError caught by the enclosing handler. -/
def format_rows : List (List String) → Option String
  | [] => some ""
  | row :: rest =>
    match row.get? 1, row.get? 2 with
    | some n, some t =>
      (format_rows rest).map (fun s => "- " ++ n ++ " (" ++ t ++ ")\n" ++ s)
    | _, _ => none

/-- app.py lines 48–61, `format_schema_for_prompt`: render the
`PRAGMA table_info` rows for the prompt, degrading to a
`Could not retrieve schema` placeholder on any exception; the database
state after the introspection query is threaded through. -/
def format_schema_for_prompt (engine : Engine) (db : DB) (table_name : String) :
    String × DB :=
  match engine ("PRAGMA table_info('" ++ table_name ++ "')") db with
  | .ok (_, schemaRows, db2) =>
    match format_rows schemaRows with
    | some body =>
      ("Table '" ++ table_name ++ "' has the following columns:\n" ++ body, db2)
    | none => ("Could not retrieve schema: tuple index out of range", db2)
  | .error e => ("Could not retrieve schema: " ++ e, db)

/-- The fixed keyword list of app.py line 135. -/
def schema_keywords : List String :=
  ["schema", "columns", "data types", "table info", "structure", "describe"]

/-- app.py lines 199–211: extract the payload from the model response,
strictly decode it, and read `sql_query` / `explanation` with their
sentinel fallbacks; a decode failure yields the sentinel SQL and an
explanation carrying the raw offending text. -/
def parse_llm_sql (jd : JsonDecoder) (content : String) : String × String :=
  let generated_json := extract_payload content
  match jd generated_json with
  | some obj =>
    (lookupD obj "sql_query" "Error generating SQL.",
     lookupD obj "explanation" "Failed to generate a valid explanation.")
  | none =>
    ("Error generating SQL.",
     "LLM returned invalid JSON. Response was: " ++ generated_json)

/-- The 404 message of app.py line 128. -/
def sessionNotFoundMsg : String :=
  "Session not found. Please upload a dataset first."

/-- app.py lines 119–239, `ask_query`: lowercase the question, resolve
the session, answer schema questions directly from introspection with a
synthetic `DESCRIBE` display string, otherwise call the model, parse its
JSON, and execute the SQL only when requested, nonempty and free of the
substring `Error`.  Returns the response and the updated session dict
(the session's database state reflects the queries run on its
connection). -/
def ask_query (engine : Engine) (llm : LLM) (jd : JsonDecoder)
    (reg : Registry) (question_form session_id_form execute_sql_form : Option String) :
    AskOutcome × Registry :=
  let question := pyLower (question_form.getD "")
  let execute_sql := pyLower (execute_sql_form.getD "false") == "true"
  let sid := session_id_form.getD ""
  if sid == "" then (.err 404 sessionNotFoundMsg, reg)
  else
    match regLookup reg sid with
    | none => (.err 404 sessionNotFoundMsg, reg)
    | some sd =>
      if schema_keywords.any (fun w => strContains question w) then
        let sql_display := "DESCRIBE " ++ sd.table_name ++ ";"
        let sql_execution := "SELECT * FROM PRAGMA_TABLE_INFO('" ++ sd.table_name ++ "')"
        let explanation := "This query retrieves the schema for the '" ++ sd.table_name ++
          "' table, showing column names, data types, and other properties."
        let res := run_execute engine sd.db sql_execution
        (.ok { sql_query := sql_display, explanation := explanation,
               results := res.1, execution_error := res.2.1 },
         regSet reg sid { sd with db := res.2.2 })
      else
        let fs := format_schema_for_prompt engine sd.db sd.table_name
        match llm question sd.table_name fs.1 with
        | .error e => (.err 500 e, regSet reg sid { sd with db := fs.2 })
        | .ok content =>
          let pe := parse_llm_sql jd content
          if execute_sql && !(pe.1 == "") && !(strContains pe.1 "Error") then
            let res := run_execute engine fs.2 pe.1
            (.ok { sql_query := pe.1, explanation := pe.2,
                   results := res.1, execution_error := res.2.1 },
             regSet reg sid { sd with db := res.2.2 })
          else
            (.ok { sql_query := pe.1, explanation := pe.2,
                   results := none, execution_error := none },
             regSet reg sid { sd with db := fs.2 })

/-- `file.save` / `duckdb.connect`: the path comes to exist on disk (a
connect to an existing file reopens it). -/
def touchFile (files : List String) (p : String) : List String :=
  if files.contains p then files else p :: files

/-- `os.remove` guarded by `os.path.exists` (app.py lines 115–116,
253–256). -/
def removeFile (files : List String) (p : String) : List String :=
  files.filter (fun q => !(q == p))

/-- The CSV-ingestion oracle: the outcome of
`con.execute("CREATE OR REPLACE TABLE ... AS SELECT * FROM read_csv_auto(...)")`,
which depends on the bytes of the external file. -/
abbrev Ingest := String → Except String DB

/-- app.py lines 27–46, `get_db_info`: lower the extension, derive the
backing `.duckdb` path with `str.replace`, open the connection (which
creates the backing file), then require `.csv` and run the
`CREATE OR REPLACE TABLE` ingestion; every raised exception is rewrapped
with the `Failed to create database from file:` text.  Returns the
outcome together with the updated disk files and open connections — on a
raise, the connection just opened stays open. -/
def get_db_info (ingest : Ingest) (files cons : List String)
    (file_path table_name : String) :
    Except String (DB × String × String) × List String × List String :=
  let file_ext := pyLower (splitext_ext file_path)
  let db_file_path := pyReplace file_path file_ext ".duckdb"
  let files2 := touchFile files db_file_path
  let cons2 := db_file_path :: cons
  if file_ext == ".csv" then
    match ingest ("CREATE OR REPLACE TABLE " ++ table_name ++
        " AS SELECT * FROM read_csv_auto('" ++ file_path ++ "')") with
    | .ok db => (.ok (db, table_name, db_file_path), files2, cons2)
    | .error e =>
      (.error ("Failed to create database from file: " ++ e), files2, cons2)
  else
    (.error ("Failed to create database from file: Unsupported file format: " ++
      file_ext), files2, cons2)

/-- app.py line 91: the `{"name": row[1], "type": row[2]}` projection of
the `PRAGMA table_info` rows; a too-short row raises IndexError. -/
def colPairs : List (List String) → Option (List (String × String))
  | [] => some []
  | row :: rest =>
    match row.get? 1, row.get? 2 with
    | some n, some t => (colPairs rest).map (fun l => (n, t) :: l)
    | _, _ => none

/-- app.py lines 68–117, `upload_file`: validate the form, save the
upload to a fresh temp path carrying the original extension, build the
database via `get_db_info`, read columns, row count and preview, then
register the session under the fresh id.  On any exception after the
temp file exists, only the temp file is removed before the 500 reply —
the connection and backing database file opened inside `get_db_info` are
not touched by this handler. -/
def upload_file (ingest : Ingest) (engine : Engine)
    (tmp_base new_session_id : String)
    (file_present : Bool) (filename : String) (table_name_form : Option String)
    (w : World) : UploadOutcome × World :=
  if !file_present then (.err 400 "No file part in the request.", w)
  else
    let table_name := table_name_form.getD ""
    if filename == "" then (.err 400 "No file selected.", w)
    else if table_name == "" then (.err 400 "Table name not provided.", w)
    else
      let file_ext := splitext_ext filename
      let temp_file_path := tmp_base ++ file_ext
      let files0 := touchFile w.files temp_file_path
      match get_db_info ingest files0 w.cons temp_file_path table_name with
      | (.error e, files1, cons1) =>
        (.err 500 e,
         { registry := w.registry, files := removeFile files1 temp_file_path,
           cons := cons1 })
      | (.ok (db, table_name_actual, db_file_path), files1, cons1) =>
        match engine ("PRAGMA table_info('" ++ table_name_actual ++ "')") db with
        | .error e =>
          (.err 500 e,
           { registry := w.registry, files := removeFile files1 temp_file_path,
             cons := cons1 })
        | .ok (_, schemaRows, db1) =>
          match colPairs schemaRows with
          | none =>
            (.err 500 "tuple index out of range",
             { registry := w.registry, files := removeFile files1 temp_file_path,
               cons := cons1 })
          | some columns =>
            match engine ("SELECT COUNT(*) FROM " ++ table_name_actual) db1 with
            | .error e =>
              (.err 500 e,
               { registry := w.registry, files := removeFile files1 temp_file_path,
                 cons := cons1 })
            | .ok (_, countRows, db2) =>
              match countRows.head?.bind (fun r => r.get? 0) with
              | none =>
                (.err 500 "'NoneType' object is not subscriptable",
                 { registry := w.registry, files := removeFile files1 temp_file_path,
                   cons := cons1 })
              | some total_rows =>
                match engine ("SELECT * FROM " ++ table_name_actual ++ " LIMIT 20") db2 with
                | .error e =>
                  (.err 500 e,
                   { registry := w.registry, files := removeFile files1 temp_file_path,
                     cons := cons1 })
                | .ok (_, preview_data, db3) =>
                  (.ok new_session_id columns total_rows preview_data table_name_actual,
                   { registry := regSet w.registry new_session_id
                       { db := db3, file_path := temp_file_path,
                         db_file_path := db_file_path,
                         table_name := table_name_actual },
                     files := files1, cons := cons1 })

/-- app.py lines 241–260, `clear_session`: when the id is bound, close
the connection, remove the temp source file and the backing database
file when they exist, and delete the dict entry; otherwise a 404 reply
and untouched state. -/
def clear_session (w : World) (session_id_form : Option String) :
    SimpleOutcome × World :=
  let sid := session_id_form.getD ""
  match regLookup w.registry sid with
  | some sd =>
    let cons1 := w.cons.erase sd.db_file_path
    let files1 := removeFile w.files sd.file_path
    let files2 := removeFile files1 sd.db_file_path
    (.ok "Session cleared.",
     { registry := regErase w.registry sid, files := files2, cons := cons1 })
  | none => (.err 404 "Session not found.", w)

/-- A sample engine that answers every statement with one fixed
header/row pair and leaves the database untouched. -/
def engA : Engine := fun _ db => .ok (["name", "type"], [["id", "INTEGER"]], db)

/-- A sample engine whose every execution raises. -/
def engErr : Engine := fun _ _ => .error "boom"

/-- A model oracle echoing the question text it was handed. -/
def llmEcho : LLM := fun q _ _ => .ok q

/-- A model oracle with a fixed response. -/
def llmConst : LLM := fun _ _ _ => .ok "resp"

/-- A model oracle answering with text that is not JSON. -/
def llmBad : LLM := fun _ _ _ => .ok "not json"

/-- A decoder wrapping the whole payload as the `sql_query` field. -/
def jdEcho : JsonDecoder := fun s => some [("sql_query", s)]

/-- A decoder for which every payload fails strict decoding. -/
def jdNone : JsonDecoder := fun _ => none

/-- A decoder yielding a legitimate SELECT that mentions an `ErrorCode`
column. -/
def jdErrCol : JsonDecoder := fun _ =>
  some [("sql_query", "SELECT ErrorCode FROM people"), ("explanation", "lists error codes")]

/-- An ingestion oracle that always fails (never reached in the
unsupported-format scenarios). -/
def ingFail : Ingest := fun _ => .error "malformed"

/-- A sample session over a one-row table `people`. -/
def sdA : SessionData :=
  { db := [["1", "x"]], file_path := "/tmp/f.csv",
    db_file_path := "/tmp/f.duckdb", table_name := "people" }

/-- A registry holding the sample session under id `abc`. -/
def regA : Registry := [("abc", sdA)]

/-- A world holding the sample session together with its two disk files
and its open connection. -/
def wA : World :=
  { registry := regA, files := ["/tmp/f.csv", "/tmp/f.duckdb"],
    cons := ["/tmp/f.duckdb"] }

/-- The execute-and-fetch block never populates both the results and the
execution error: one of the two is always null. -/
theorem run_execute_exclusive (engine : Engine) (db : DB) (sql : String) :
    (run_execute engine db sql).1 = none ∨ (run_execute engine db sql).2.1 = none := by
  unfold run_execute
  cases h : engine sql db with
  | ok v =>
    obtain ⟨headers, rows, db2⟩ := v
    right; rfl
  | error e => left; rfl

/-- Looking up a key just deleted from the session dict fails. -/
theorem regLookup_regErase (reg : Registry) (sid : String) :
    regLookup (regErase reg sid) sid = none := by
  unfold regLookup regErase
  induction reg with
  | nil => rfl
  | cons p rest ih =>
    by_cases hp : p.1 == sid
    · simpa [List.filter_cons, hp] using ih
    · simpa [List.filter_cons, hp, List.find?] using ih

/-- The sentinel SQL string contains the substring `Error`. -/
theorem sentinel_contains_error : strContains "Error generating SQL." "Error" = true := by
  decide

/-- Claim C5: for every successful execution, the headers come from the
executed statement's own cursor description (the engine's per-statement
output, for every engine, hence never assumed equal to the source
dataset's columns), and the result is the header list prepended to the
fetched rows. -/
theorem headers_from_cursor_description
    (engine : Engine) (db db2 : DB) (sql : String)
    (headers : List String) (rows : List (List String))
    (h : engine sql db = .ok (headers, rows, db2)) :
    run_execute engine db sql = (some (headers :: rows), none, db2) := by
  unfold run_execute
  rw [h]

/-- Witness for C5 at a concrete engine and statement. -/
theorem headers_from_cursor_description_witness :
    run_execute engA sdA.db "SELECT 1" =
      (some (["name", "type"] :: [["id", "INTEGER"]]), none, sdA.db) :=
  headers_from_cursor_description engA sdA.db sdA.db "SELECT 1"
    ["name", "type"] [["id", "INTEGER"]] rfl

/-- Claim C9: for a SQL string the engine accepts against a session
whose database state it leaves unchanged, the first and the second
execution of that same string return the identical headers and rows:
execution is a function of the SQL text and the dataset alone. -/
theorem execution_deterministic_on_unchanged_db
    (engine : Engine) (db db2 : DB) (sql : String)
    (headers : List String) (rows : List (List String))
    (hok : engine sql db = .ok (headers, rows, db2)) (hunch : db2 = db) :
    run_execute engine db sql = (some (headers :: rows), none, db) ∧
    run_execute engine (run_execute engine db sql).2.2 sql =
      (some (headers :: rows), none, db) := by
  have h1 : run_execute engine db sql = (some (headers :: rows), none, db) := by
    simp only [run_execute, hok, hunch]
  refine ⟨h1, ?_⟩
  rw [h1]
  exact h1

/-- Witness for C9 at a concrete engine and statement. -/
theorem execution_deterministic_witness :
    run_execute engA sdA.db "SELECT name FROM people" =
      (some (["name", "type"] :: [["id", "INTEGER"]]), none, sdA.db) ∧
    run_execute engA (run_execute engA sdA.db "SELECT name FROM people").2.2
        "SELECT name FROM people" =
      (some (["name", "type"] :: [["id", "INTEGER"]]), none, sdA.db) :=
  execution_deterministic_on_unchanged_db engA sdA.db sdA.db "SELECT name FROM people"
    ["name", "type"] [["id", "INTEGER"]] rfl rfl

/-- Claim C1: when the lowercased question contains one of the fixed
schema keywords, `ask_query` is independent of the language-model oracle
and of the JSON decoder (the translator is never invoked), and it
returns the success response whose `sql_query` is the synthetic display
string `DESCRIBE <table>;`, whose explanation is the fixed
schema-derived text, and whose results come from introspecting the
session's own table schema. -/
theorem schema_shortcut_bypasses_translator
    (engine : Engine) (llm llm2 : LLM) (jd jd2 : JsonDecoder)
    (reg : Registry) (q ex : Option String) (sid : String) (sd : SessionData)
    (hsid : (sid == "") = false) (hlook : regLookup reg sid = some sd)
    (hkw : schema_keywords.any (fun w => strContains (pyLower (q.getD "")) w) = true) :
    ask_query engine llm jd reg q (some sid) ex =
      (.ok { sql_query := "DESCRIBE " ++ sd.table_name ++ ";",
             explanation := "This query retrieves the schema for the '" ++ sd.table_name ++
               "' table, showing column names, data types, and other properties.",
             results := (run_execute engine sd.db
               ("SELECT * FROM PRAGMA_TABLE_INFO('" ++ sd.table_name ++ "')")).1,
             execution_error := (run_execute engine sd.db
               ("SELECT * FROM PRAGMA_TABLE_INFO('" ++ sd.table_name ++ "')")).2.1 },
       regSet reg sid { sd with db := (run_execute engine sd.db
         ("SELECT * FROM PRAGMA_TABLE_INFO('" ++ sd.table_name ++ "')")).2.2 }) ∧
    ask_query engine llm jd reg q (some sid) ex =
      ask_query engine llm2 jd2 reg q (some sid) ex := by
  have key : ∀ (l : LLM) (j : JsonDecoder),
      ask_query engine l j reg q (some sid) ex =
        (.ok { sql_query := "DESCRIBE " ++ sd.table_name ++ ";",
               explanation := "This query retrieves the schema for the '" ++ sd.table_name ++
                 "' table, showing column names, data types, and other properties.",
               results := (run_execute engine sd.db
                 ("SELECT * FROM PRAGMA_TABLE_INFO('" ++ sd.table_name ++ "')")).1,
               execution_error := (run_execute engine sd.db
                 ("SELECT * FROM PRAGMA_TABLE_INFO('" ++ sd.table_name ++ "')")).2.1 },
         regSet reg sid { sd with db := (run_execute engine sd.db
           ("SELECT * FROM PRAGMA_TABLE_INFO('" ++ sd.table_name ++ "')")).2.2 }) := by
    intro l j
    simp only [ask_query, Option.getD_some, hsid, Bool.false_eq_true, if_false, hlook, hkw,
      if_true]
  exact ⟨key llm jd, (key llm jd).trans (key llm2 jd2).symm⟩

/-- Witness for C1 at a concrete session and schema question, with two
distinct model oracles and decoders. -/
theorem schema_shortcut_bypasses_translator_witness :
    ask_query engA llmEcho jdEcho regA (some "Show me the SCHEMA") (some "abc") (some "false") =
      (.ok { sql_query := "DESCRIBE " ++ sdA.table_name ++ ";",
             explanation := "This query retrieves the schema for the '" ++ sdA.table_name ++
               "' table, showing column names, data types, and other properties.",
             results := (run_execute engA sdA.db
               ("SELECT * FROM PRAGMA_TABLE_INFO('" ++ sdA.table_name ++ "')")).1,
             execution_error := (run_execute engA sdA.db
               ("SELECT * FROM PRAGMA_TABLE_INFO('" ++ sdA.table_name ++ "')")).2.1 },
       regSet regA "abc" { sdA with db := (run_execute engA sdA.db
         ("SELECT * FROM PRAGMA_TABLE_INFO('" ++ sdA.table_name ++ "')")).2.2 }) ∧
    ask_query engA llmEcho jdEcho regA (some "Show me the SCHEMA") (some "abc") (some "false") =
      ask_query engA llmConst jdNone regA (some "Show me the SCHEMA") (some "abc") (some "false") :=
  schema_shortcut_bypasses_translator engA llmEcho llmConst jdEcho jdNone regA
    (some "Show me the SCHEMA") (some "false") "abc" sdA (by decide) (by decide) (by decide)

/-- Claim C2: when the model's extracted payload fails strict JSON
decoding, the request still succeeds, `sql_query` is the sentinel
`Error generating SQL.`, the explanation carries the raw offending text,
and execution is skipped entirely, leaving both `results` and
`execution_error` null — whatever the requested execute flag. -/
theorem invalid_json_sentinel_response
    (engine : Engine) (llm : LLM) (jd : JsonDecoder) (reg : Registry)
    (q ex : Option String) (sid content : String) (sd : SessionData)
    (hsid : (sid == "") = false) (hlook : regLookup reg sid = some sd)
    (hnkw : schema_keywords.any (fun w => strContains (pyLower (q.getD "")) w) = false)
    (hllm : llm (pyLower (q.getD "")) sd.table_name
      (format_schema_for_prompt engine sd.db sd.table_name).1 = .ok content)
    (hjd : jd (extract_payload content) = none) :
    (ask_query engine llm jd reg q (some sid) ex).1 =
      .ok { sql_query := "Error generating SQL.",
            explanation := "LLM returned invalid JSON. Response was: " ++
              extract_payload content,
            results := none, execution_error := none } := by
  simp only [ask_query, Option.getD_some, hsid, Bool.false_eq_true, if_false, hlook, hnkw,
    hllm, parse_llm_sql, hjd, sentinel_contains_error, Bool.not_true, Bool.and_false,
    if_true, if_false]

/-- Witness for C2: a model reply that is not JSON yields the sentinel
response with execution skipped even though execution was requested. -/
theorem invalid_json_sentinel_response_witness :
    (ask_query engA llmBad jdNone regA (some "how many rows") (some "abc") (some "true")).1 =
      .ok { sql_query := "Error generating SQL.",
            explanation := "LLM returned invalid JSON. Response was: " ++
              extract_payload "not json",
            results := none, execution_error := none } :=
  invalid_json_sentinel_response engA llmBad jdNone regA (some "how many rows")
    (some "true") "abc" "not json" sdA (by decide) (by decide) (by decide) rfl rfl

/-- Claim C10: execution is skipped (both `results` and
`execution_error` stay null) whenever the translated `sql_query`
contains the substring `Error` anywhere — not only when it equals the
sentinel — so even a legitimate statement mentioning `Error` is never
executed, whatever the execute flag says. -/
theorem error_substring_skips_execution
    (engine : Engine) (llm : LLM) (jd : JsonDecoder) (reg : Registry)
    (q ex : Option String) (sid content : String) (sd : SessionData)
    (hsid : (sid == "") = false) (hlook : regLookup reg sid = some sd)
    (hnkw : schema_keywords.any (fun w => strContains (pyLower (q.getD "")) w) = false)
    (hllm : llm (pyLower (q.getD "")) sd.table_name
      (format_schema_for_prompt engine sd.db sd.table_name).1 = .ok content)
    (hsub : strContains (parse_llm_sql jd content).1 "Error" = true) :
    (ask_query engine llm jd reg q (some sid) ex).1 =
      .ok { sql_query := (parse_llm_sql jd content).1,
            explanation := (parse_llm_sql jd content).2,
            results := none, execution_error := none } := by
  simp only [ask_query, Option.getD_some, hsid, Bool.false_eq_true, if_false, hlook, hnkw,
    hllm, hsub, Bool.not_true, Bool.and_false, if_true, if_false]

/-- Witness for C10: a translated `SELECT ErrorCode FROM people` is
skipped although execution was requested with `execute_sql=true`. -/
theorem error_substring_skips_execution_witness :
    (ask_query engA llmConst jdErrCol regA (some "show error codes") (some "abc")
        (some "true")).1 =
      .ok { sql_query := (parse_llm_sql jdErrCol "resp").1,
            explanation := (parse_llm_sql jdErrCol "resp").2,
            results := none, execution_error := none } :=
  error_substring_skips_execution engA llmConst jdErrCol regA (some "show error codes")
    (some "true") "abc" "resp" sdA (by decide) (by decide) (by decide) rfl (by decide)

/-- Claim C4: in every success response `ask_query` produces — through
the schema shortcut, the skip branch or the translate-then-execute
branch — the `results` field and the `execution_error` field are never
both populated. -/
theorem results_and_error_mutually_exclusive
    (engine : Engine) (llm : LLM) (jd : JsonDecoder) (reg : Registry)
    (q sidf ex : Option String) (resp : QueryResponse) (reg2 : Registry)
    (h : ask_query engine llm jd reg q sidf ex = (.ok resp, reg2)) :
    resp.results = none ∨ resp.execution_error = none := by
  simp only [ask_query] at h
  split at h
  · cases h
  · split at h
    · cases h
    · split at h
      · simp only [Prod.mk.injEq, AskOutcome.ok.injEq] at h
        obtain ⟨h1, -⟩ := h
        subst h1
        exact run_execute_exclusive _ _ _
      · split at h
        · cases h
        · split at h
          · simp only [Prod.mk.injEq, AskOutcome.ok.injEq] at h
            obtain ⟨h1, -⟩ := h
            subst h1
            exact run_execute_exclusive _ _ _
          · simp only [Prod.mk.injEq, AskOutcome.ok.injEq] at h
            obtain ⟨h1, -⟩ := h
            subst h1
            left; rfl

/-- Witness for C4 at a concrete success response of the schema
shortcut. -/
theorem results_and_error_mutually_exclusive_witness :
    ({ sql_query := "DESCRIBE people;",
       explanation := "This query retrieves the schema for the 'people' table, showing column names, data types, and other properties.",
       results := some [["name", "type"], ["id", "INTEGER"]],
       execution_error := none } : QueryResponse).results = none ∨
    ({ sql_query := "DESCRIBE people;",
       explanation := "This query retrieves the schema for the 'people' table, showing column names, data types, and other properties.",
       results := some [["name", "type"], ["id", "INTEGER"]],
       execution_error := none } : QueryResponse).execution_error = none :=
  results_and_error_mutually_exclusive engA llmEcho jdEcho regA
    (some "Show me the SCHEMA") (some "abc") (some "false")
    { sql_query := "DESCRIBE people;",
      explanation := "This query retrieves the schema for the 'people' table, showing column names, data types, and other properties.",
      results := some [["name", "type"], ["id", "INTEGER"]],
      execution_error := none }
    [("abc", sdA)] (by decide)

/-- Claim C3: after a successful `clear_session` on an id, an `ask` with
that id returns the 404 session-not-found error, and a second
`clear_session` on the same id also returns the 404 not-found reply
rather than an unhandled fault. -/
theorem clear_then_ask_session_not_found
    (engine : Engine) (llm : LLM) (jd : JsonDecoder)
    (w : World) (sid : String) (sd : SessionData) (q ex : Option String)
    (hlook : regLookup w.registry sid = some sd) :
    (clear_session w (some sid)).1 = .ok "Session cleared." ∧
    (ask_query engine llm jd (clear_session w (some sid)).2.registry q (some sid) ex).1 =
      .err 404 sessionNotFoundMsg ∧
    (clear_session (clear_session w (some sid)).2 (some sid)).1 =
      .err 404 "Session not found." := by
  have hw : clear_session w (some sid) =
      (.ok "Session cleared.",
       { registry := regErase w.registry sid,
         files := removeFile (removeFile w.files sd.file_path) sd.db_file_path,
         cons := w.cons.erase sd.db_file_path }) := by
    simp only [clear_session, Option.getD_some, hlook]
  have hnone : regLookup (regErase w.registry sid) sid = none := regLookup_regErase _ _
  refine ⟨by rw [hw], ?_, ?_⟩
  · rw [hw]
    by_cases hsid : sid == ""
    · simp only [ask_query, Option.getD_some, hsid, if_true]
    · simp only [ask_query, Option.getD_some, hsid, Bool.false_eq_true, if_false, hnone]
  · rw [hw]
    simp only [clear_session, Option.getD_some, hnone]

/-- Witness for C3 at a concrete world holding one session. -/
theorem clear_then_ask_session_not_found_witness :
    (clear_session wA (some "abc")).1 = .ok "Session cleared." ∧
    (ask_query engA llmEcho jdEcho (clear_session wA (some "abc")).2.registry
        (some "how many rows") (some "abc") (some "false")).1 =
      .err 404 sessionNotFoundMsg ∧
    (clear_session (clear_session wA (some "abc")).2 (some "abc")).1 =
      .err 404 "Session not found." :=
  clear_then_ask_session_not_found engA llmEcho jdEcho wA "abc" sdA
    (some "how many rows") (some "false") (by decide)

/-- Claim C6 (code bug, app.py line 122): the question is lowercased
once at entry and that lowercased copy is what reaches the translator —
here an echoing model oracle shows the prompt question for
`Show ALL Rows` is `show all rows`, not the original text, contradicting
the claim that original casing reaches the translator. -/
theorem translator_receives_lowercased_question :
    (ask_query engErr llmEcho jdEcho regA (some "Show ALL Rows") (some "abc")
        (some "false")).1 =
      .ok { sql_query := "show all rows",
            explanation := "Failed to generate a valid explanation.",
            results := none, execution_error := none } ∧
    ("show all rows" : String) ≠ "Show ALL Rows" :=
  ⟨by decide, by decide⟩

/-- Claim C7: an upload whose (lowercased) extension is not `.csv` gets
the wrapped unsupported-format 500 error, and the session registry is
left exactly as it was — no session is created. -/
theorem unsupported_format_no_session
    (ingest : Ingest) (engine : Engine) (tmp_base nsid filename t : String)
    (w : World)
    (hfn : (filename == "") = false) (ht : (t == "") = false)
    (hext : (pyLower (splitext_ext (tmp_base ++ splitext_ext filename)) == ".csv") = false) :
    (upload_file ingest engine tmp_base nsid true filename (some t) w).1 =
      .err 500 ("Failed to create database from file: Unsupported file format: " ++
        pyLower (splitext_ext (tmp_base ++ splitext_ext filename))) ∧
    (upload_file ingest engine tmp_base nsid true filename (some t) w).2.registry =
      w.registry := by
  simp only [upload_file, Bool.not_true, Bool.false_eq_true, if_false, Option.getD_some,
    hfn, ht, get_db_info, hext]
  exact ⟨trivial, trivial⟩

/-- Witness for C7: uploading `data.txt` fails with the unsupported
format message and leaves the registry untouched. -/
theorem unsupported_format_no_session_witness :
    (upload_file ingFail engA "/tmp/tmpabc" "sid1" true "data.txt" (some "t") wA).1 =
      .err 500 ("Failed to create database from file: Unsupported file format: " ++
        pyLower (splitext_ext ("/tmp/tmpabc" ++ splitext_ext "data.txt"))) ∧
    (upload_file ingFail engA "/tmp/tmpabc" "sid1" true "data.txt" (some "t") wA).2.registry =
      wA.registry :=
  unsupported_format_no_session ingFail engA "/tmp/tmpabc" "sid1" "data.txt" "t" wA
    (by decide) (by decide) (by decide)

/-- Claim C8 (code bug, app.py lines 114–117): when an upload fails
after the DuckDB connection was opened, the error handler removes only
the temporary source file — starting from an empty machine state, a
failed upload of `data.txt` leaves the backing `.duckdb` file on disk
and the connection open, so the backing resources are not all released
on this exit path. -/
theorem failed_upload_leaks_connection_and_db_file :
    (upload_file ingFail engA "/tmp/tmpabc" "sid1" true "data.txt" (some "t")
        { registry := [], files := [], cons := [] }).1 =
      .err 500 "Failed to create database from file: Unsupported file format: .txt" ∧
    (upload_file ingFail engA "/tmp/tmpabc" "sid1" true "data.txt" (some "t")
        { registry := [], files := [], cons := [] }).2 =
      { registry := [], files := ["/tmp/tmpabc.duckdb"], cons := ["/tmp/tmpabc.duckdb"] } :=
  ⟨by decide, by decide⟩

end NLSQL
